import Mathlib

/-!
Verification of the incremental blockchain-to-BigQuery ETL loop in
`main.py` (class `EtlThread`).

The embedding models the per-tick behaviour of `EtlThread._run` as a pure
function over an explicit state.  The three external dependencies (the
ledger node read `web3.eth.getBlock`, the extraction job
`EtlThread._extract`, and the two BigQuery table loads) are modelled by a
`TickEnv` record carrying the result each external call would return on
this tick (a value or a raised exception), together with the availability
of the cursor store.  Machine integers are Python arbitrary-precision
integers, so block numbers are `Int` and counters are `Nat` with no
overflow.  Raised exceptions become `Except`/`Option Err` values.

The tick additionally produces a trace of externally visible events
(extraction invoked, load invoked, warehouse contacted, cursor commit), so
that claims of the form "X is never invoked" are statements about the
trace.
-/

/-- Exceptions that the external collaborators of `EtlThread._run` can
raise, one constructor per failure site in `main.py`. -/
inductive Err where
  /-- `web3.eth.getBlock` fails (network, timeout, malformed response). -/
  | chainRead : Err
  /-- `ExportOriginJob.run` inside `EtlThread._extract` raises. -/
  | extraction : Err
  /-- `client.load_table_from_file` / `job.result()` inside
  `EtlThread._bigquery_load` raises. -/
  | loadFail : Err
  /-- `EtlCursor.query.all()` inside `EtlThread._set_cursor` raises
  (store unavailable). -/
  | storeQuery : Err
  /-- the explicit `raise Exception("Failed loading cursor for update")`
  in `EtlThread._set_cursor` when the cursor table is empty. -/
  | storeEmpty : Err
  /-- `db.session.commit()` inside `EtlThread._set_cursor` raises. -/
  | storeCommit : Err
deriving DecidableEq, Repr

/-- The two datasets loaded each tick, in the fixed order of
`EtlThread._run`: marketplace (dataset A) then dshop (dataset B). -/
inductive Dataset where
  | marketplace : Dataset
  | dshop : Dataset
deriving DecidableEq, Repr

/-- Externally visible events of one tick of `EtlThread._run`. -/
inductive Ev where
  /-- `EtlThread._extract(start_block, end_block)` is invoked. -/
  | extractCall (s e : Int) : Ev
  /-- `EtlThread._load_marketplace` / `_load_dshop` is invoked. -/
  | loadCall (d : Dataset) : Ev
  /-- `EtlThread._bigquery_load` actually contacts the warehouse
  (the artifact was present and non-empty). -/
  | bqContact (d : Dataset) : Ev
  /-- `EtlThread._set_cursor(b)` is invoked. -/
  | setCursorCall (b : Int) : Ev
  /-- `db.session.commit()` in `_set_cursor` persists block number `b`:
  the only write to persisted state anywhere in the tick. -/
  | dbCommit (b : Int) : Ev
deriving DecidableEq, Repr

/-- State of `EtlThread` relevant to the claims: the in-memory
`self.start_block`, the persisted `etl_cursor` table rows (their
`block_number` column, in query order), and the health counters. -/
structure EtlState where
  /-- in-memory `self.start_block`. -/
  start_block : Int
  /-- persisted `EtlCursor` rows (`block_number` of each row, in the
  order `EtlCursor.query.all()` returns them). -/
  cursors : List Int
  /-- `self.num_errors`. -/
  num_errors : Nat
  /-- `self.last_error`. -/
  last_error : Option Err
  /-- `self.num_marketplace_rows`. -/
  num_marketplace_rows : Nat
  /-- `self.num_dshop_rows`. -/
  num_dshop_rows : Nat
deriving DecidableEq, Repr

/-- Behaviour of the external collaborators on one tick: what each
external call would return (or raise) if invoked. -/
structure TickEnv where
  /-- result of `self.web3.eth.getBlock('latest')['number']`. -/
  tip : Except Err Int
  /-- `none` if `EtlThread._extract` would succeed, `some e` if it would
  raise `e`. -/
  extractErr : Option Err
  /-- `os.path.getsize` of the marketplace output file (0 when absent). -/
  marketplaceSize : Nat
  /-- result of the marketplace BigQuery load job (`job.output_rows` or a
  raised exception), if the warehouse is contacted. -/
  marketplaceLoad : Except Err Nat
  /-- `os.path.getsize` of the dshop output file (0 when absent). -/
  dshopSize : Nat
  /-- result of the dshop BigQuery load job, if the warehouse is
  contacted. -/
  dshopLoad : Except Err Nat
  /-- `none` if `EtlCursor.query.all()` in `_set_cursor` would succeed. -/
  storeQueryErr : Option Err
  /-- `none` if `db.session.commit()` in `_set_cursor` would succeed. -/
  storeCommitErr : Option Err
deriving Repr

/-- `JOB_BLOCK_LAG = 4` in `main.py`: confirmation lag. -/
def JOB_BLOCK_LAG : Int := 4

/-- `START_BLOCK_EPOCH = 10014455` in `main.py`. -/
def START_BLOCK_EPOCH : Int := 10014455

/-- Effect of the `except Exception` handler at the bottom of
`EtlThread._run`: count the error and record it as `last_error`. -/
def failSt (st : EtlState) (e : Err) : EtlState :=
  { st with num_errors := st.num_errors + 1, last_error := some e }

/-- `EtlThread._bigquery_load`: if the artifact file is absent or empty
(`data_size = 0`) return 0 rows without contacting the warehouse;
otherwise contact the warehouse and return the load job's result.  The
second component records whether the warehouse was contacted. -/
def bigquery_load (dataSize : Nat) (loadResult : Except Err Nat) :
    Except Err Nat × Bool :=
  if dataSize = 0 then (Except.ok 0, false) else (loadResult, true)

/-- Result of `EtlThread._set_cursor`: the state after the call (the
in-memory part always mutated first), the exception raised if any, and
whether the DB commit happened. -/
structure SetCursorOut where
  st : EtlState
  err : Option Err
  committed : Bool
deriving Repr

/-- `EtlThread._set_cursor(block_number)`, faithful to the statement
order of `main.py` lines 132-142: first `self.start_block =
block_number + 1` (in-memory, always happens), then
`EtlCursor.query.all()` (may raise), then the empty-table check (raises),
then `cursor.block_number = block_number; db.session.commit()` (commit
may raise, in which case the transaction rolls back and the persisted
rows are unchanged). -/
def set_cursor (qErr cErr : Option Err) (st : EtlState) (b : Int) :
    SetCursorOut :=
  let st1 := { st with start_block := b + 1 }
  match qErr with
  | some e => ⟨st1, some e, false⟩
  | none =>
    match st1.cursors with
    | [] => ⟨st1, some Err.storeEmpty, false⟩
    | _ :: rest =>
      match cErr with
      | some e => ⟨st1, some e, false⟩
      | none => ⟨{ st1 with cursors := b :: rest }, none, true⟩

/-- One tick: `EtlThread._run` (`main.py` lines 197-220).  Reads the tip,
computes `end_block = tip - JOB_BLOCK_LAG`, returns unchanged on an empty
window, otherwise extracts, loads marketplace then dshop, then advances
the cursor; any raised exception reaches the single `except` clause which
increments `num_errors` and records `last_error`. -/
def run_tick (env : TickEnv) (st : EtlState) : EtlState × List Ev :=
  match env.tip with
  | Except.error e => (failSt st e, [])
  | Except.ok tip =>
    let end_block := tip - JOB_BLOCK_LAG
    if end_block < st.start_block then (st, [])
    else
      match env.extractErr with
      | some e => (failSt st e, [Ev.extractCall st.start_block end_block])
      | none =>
        let ml := bigquery_load env.marketplaceSize env.marketplaceLoad
        let evs1 := [Ev.extractCall st.start_block end_block,
                     Ev.loadCall Dataset.marketplace] ++
                    (if ml.2 then [Ev.bqContact Dataset.marketplace] else [])
        match ml.1 with
        | Except.error e => (failSt st e, evs1)
        | Except.ok mrows =>
          let st2 := { st with
            num_marketplace_rows := st.num_marketplace_rows + mrows }
          let dl := bigquery_load env.dshopSize env.dshopLoad
          let evs2 := evs1 ++ [Ev.loadCall Dataset.dshop] ++
                      (if dl.2 then [Ev.bqContact Dataset.dshop] else [])
          match dl.1 with
          | Except.error e => (failSt st2 e, evs2)
          | Except.ok drows =>
            let st3 := { st2 with
              num_dshop_rows := st2.num_dshop_rows + drows }
            let out := set_cursor env.storeQueryErr env.storeCommitErr
              st3 end_block
            match out.err with
            | some e =>
              (failSt out.st e, evs2 ++ [Ev.setCursorCall end_block])
            | none =>
              (out.st,
               evs2 ++ [Ev.setCursorCall end_block, Ev.dbCommit end_block])

/-- A sequence of ticks of `EtlThread.run` (ignoring the sleeps, which do
not touch this state). -/
def run_ticks (envs : List TickEnv) (st : EtlState) : EtlState :=
  envs.foldl (fun s env => (run_tick env s).1) st

/-- `EtlThread._init_cursor`: on an empty table create a row with
`block_number = START_BLOCK_EPOCH - 1`; either way set
`self.start_block = cursor.block_number + 1` from the first row. -/
def init_cursor (dbCursors : List Int) : EtlState :=
  match dbCursors with
  | [] =>
    { start_block := START_BLOCK_EPOCH
      cursors := [START_BLOCK_EPOCH - 1]
      num_errors := 0
      last_error := none
      num_marketplace_rows := 0
      num_dshop_rows := 0 }
  | c :: rest =>
    { start_block := c + 1
      cursors := c :: rest
      num_errors := 0
      last_error := none
      num_marketplace_rows := 0
      num_dshop_rows := 0 }

/-- Persisted cursor value: `block_number` of the first row of the
`etl_cursor` table (0 if, impossibly, the table is empty). -/
def cursorVal (st : EtlState) : Int := st.cursors.headI

/-- States reachable by the thread: the cursor table is non-empty and the
in-memory `start_block` is at least one past the persisted cursor.
`_init_cursor` establishes this and every tick preserves it. -/
def goodState (st : EtlState) : Prop :=
  st.cursors ≠ [] ∧ cursorVal st + 1 ≤ st.start_block

/-- Test for the persisted-write event. -/
def isCommitEv : Ev → Bool
  | Ev.dbCommit _ => true
  | _ => false

/-- The exception (if any) that the body of `EtlThread._run` raises on
this tick, read off the same control flow as `run_tick`: the first
failing operation wins. -/
def tick_error (env : TickEnv) (st : EtlState) : Option Err :=
  match env.tip with
  | Except.error e => some e
  | Except.ok tip =>
    if tip - JOB_BLOCK_LAG < st.start_block then none
    else
      match env.extractErr with
      | some e => some e
      | none =>
        match (bigquery_load env.marketplaceSize env.marketplaceLoad).1 with
        | Except.error e => some e
        | Except.ok _ =>
          match (bigquery_load env.dshopSize env.dshopLoad).1 with
          | Except.error e => some e
          | Except.ok _ =>
            match env.storeQueryErr with
            | some e => some e
            | none =>
              match st.cursors with
              | [] => some Err.storeEmpty
              | _ :: _ => env.storeCommitErr

/-- One iteration count of `EtlThread._wait`: starting at loop index `i`
with `n` iterations left, the number of `time.sleep(1)` calls performed.
`alive j` is the value of `self.alive` at the check of iteration `j`
(the flag is re-read before every sleep). -/
def wait_loop (alive : Nat → Bool) : Nat → Nat → Nat
  | _, 0 => 0
  | i, n + 1 => if alive i then wait_loop alive (i + 1) n + 1 else 0

/-- `EtlThread._wait(num_sec)`: number of one-second sleeps performed. -/
def wait_sleeps (alive : Nat → Bool) (num_sec : Nat) : Nat :=
  wait_loop alive 0 num_sec

/-- Interval between consecutive liveness checks in `EtlThread._wait`, in
milliseconds: the loop body is a single `time.sleep(1)`, so consecutive
reads of `self.alive` are one full second apart. -/
def WAIT_CHECK_INTERVAL_MS : Nat := 1000

example : run_tick ⟨Except.ok 100, none, 1, Except.ok 5, 1, Except.ok 7,
    none, none⟩ ⟨51, [50], 0, none, 0, 0⟩ =
    (⟨97, [96], 0, none, 5, 7⟩,
     [Ev.extractCall 51 96, Ev.loadCall Dataset.marketplace,
      Ev.bqContact Dataset.marketplace, Ev.loadCall Dataset.dshop,
      Ev.bqContact Dataset.dshop, Ev.setCursorCall 96, Ev.dbCommit 96]) := by
  decide

example : run_tick ⟨Except.ok 53, none, 1, Except.ok 5, 1, Except.ok 7,
    none, none⟩ ⟨51, [50], 0, none, 0, 0⟩ =
    (⟨51, [50], 0, none, 0, 0⟩, []) := by decide

example : run_tick ⟨Except.ok 100, none, 1, Except.ok 5, 1, Except.ok 7,
    none, some Err.storeCommit⟩ ⟨51, [50], 0, none, 0, 0⟩ =
    (⟨97, [50], 1, some Err.storeCommit, 5, 7⟩,
     [Ev.extractCall 51 96, Ev.loadCall Dataset.marketplace,
      Ev.bqContact Dataset.marketplace, Ev.loadCall Dataset.dshop,
      Ev.bqContact Dataset.dshop, Ev.setCursorCall 96]) := by decide

/-- Helper: a warehouse-contact event sublist contains no commit event. -/
theorem filter_commit_contact (b : Bool) (d : Dataset) :
    (if b then [Ev.bqContact d] else []).filter isCommitEv = [] := by
  cases b <;> simp [isCommitEv]

/-- C4: if the safe window is empty (`end_block < start_block`), the tick
returns at once: no extraction, no loads, no event at all, and the state
(cursor, start_block, error counter, row counters) is unchanged. -/
theorem empty_window_noop (env : TickEnv) (st : EtlState) (tip : Int)
    (htip : env.tip = Except.ok tip)
    (hlt : tip - JOB_BLOCK_LAG < st.start_block) :
    run_tick env st = (st, []) := by
  simp [run_tick, htip, hlt]

/-- C4 witness: tip=53, lag=4, prior cursor=50 gives safeEnd=49 <
startBlock=51, and the tick is a strict no-op. -/
theorem empty_window_noop_witness :
    run_tick ⟨Except.ok 53, none, 1, Except.ok 5, 1, Except.ok 7,
      none, none⟩ ⟨51, [50], 0, none, 0, 0⟩ =
    (⟨51, [50], 0, none, 0, 0⟩, []) :=
  empty_window_noop _ _ 53 rfl (by decide)

/-- C5: when extraction raises, the cursor rows and `start_block` are
unchanged, the error counter goes up by exactly one, and no load is
invoked (the trace is just the extraction call). -/
theorem extraction_failure_isolated (env : TickEnv) (st : EtlState)
    (tip : Int) (e : Err)
    (htip : env.tip = Except.ok tip)
    (hge : ¬ tip - JOB_BLOCK_LAG < st.start_block)
    (hex : env.extractErr = some e) :
    (run_tick env st).1.start_block = st.start_block ∧
    (run_tick env st).1.cursors = st.cursors ∧
    (run_tick env st).1.num_errors = st.num_errors + 1 ∧
    (run_tick env st).2 = [Ev.extractCall st.start_block
      (tip - JOB_BLOCK_LAG)] ∧
    ∀ d, Ev.loadCall d ∉ (run_tick env st).2 := by
  simp [run_tick, htip, hge, hex, failSt]

/-- C5 witness: concrete extraction failure at tip=100, cursor=50. -/
theorem extraction_failure_isolated_witness :
    (run_tick ⟨Except.ok 100, some Err.extraction, 1, Except.ok 5, 1,
        Except.ok 7, none, none⟩ ⟨51, [50], 0, none, 0, 0⟩).1.start_block
      = 51 ∧
    (run_tick ⟨Except.ok 100, some Err.extraction, 1, Except.ok 5, 1,
        Except.ok 7, none, none⟩ ⟨51, [50], 0, none, 0, 0⟩).1.cursors
      = [50] := by
  have h := extraction_failure_isolated
    ⟨Except.ok 100, some Err.extraction, 1, Except.ok 5, 1,
      Except.ok 7, none, none⟩ ⟨51, [50], 0, none, 0, 0⟩ 100
    Err.extraction rfl (by decide) rfl
  exact ⟨h.1, h.2.1⟩

/-- Helper: in every tick, the dshop load is invoked only if the
marketplace load was invoked (fixed sequential order A then B). -/
theorem load_order (env : TickEnv) (st : EtlState) :
    Ev.loadCall Dataset.dshop ∈ (run_tick env st).2 →
    Ev.loadCall Dataset.marketplace ∈ (run_tick env st).2 := by
  unfold run_tick
  cases htip : env.tip with
  | error e => simp
  | ok tip =>
    by_cases hlt : tip - JOB_BLOCK_LAG < st.start_block
    · simp [hlt]
    · simp only [if_neg hlt]
      cases hex : env.extractErr with
      | some e => simp
      | none =>
        cases hml : (bigquery_load env.marketplaceSize
            env.marketplaceLoad).1 with
        | error e => intro _; simp
        | ok mrows =>
          cases hdl : (bigquery_load env.dshopSize env.dshopLoad).1 with
          | error e => intro _; simp
          | ok drows =>
            cases hq : (set_cursor env.storeQueryErr env.storeCommitErr
                { st with
                  num_marketplace_rows := st.num_marketplace_rows + mrows,
                  num_dshop_rows := st.num_dshop_rows + drows }
                (tip - JOB_BLOCK_LAG)).err with
            | some e => intro _; simp [hq]
            | none => intro _; simp [hq]

/-- C6: when the marketplace (dataset A) load raises, the cursor rows and
`start_block` are unchanged, the error counter goes up by exactly one,
and the dshop (dataset B) load is never invoked; moreover, on any tick at
all, the dshop load runs only after the marketplace load (fixed order A
then B, strictly sequential). -/
theorem marketplace_failure_isolated (env : TickEnv) (st : EtlState)
    (tip : Int) (e : Err)
    (htip : env.tip = Except.ok tip)
    (hge : ¬ tip - JOB_BLOCK_LAG < st.start_block)
    (hex : env.extractErr = none)
    (hml : (bigquery_load env.marketplaceSize env.marketplaceLoad).1 =
      Except.error e) :
    (run_tick env st).1.cursors = st.cursors ∧
    (run_tick env st).1.start_block = st.start_block ∧
    (run_tick env st).1.num_errors = st.num_errors + 1 ∧
    Ev.loadCall Dataset.dshop ∉ (run_tick env st).2 ∧
    (∀ env2 st2, Ev.loadCall Dataset.dshop ∈ (run_tick env2 st2).2 →
      Ev.loadCall Dataset.marketplace ∈ (run_tick env2 st2).2) := by
  refine ⟨?_, ?_, ?_, ?_, fun env2 st2 => load_order env2 st2⟩ <;>
    simp [run_tick, htip, hge, hex, hml, failSt]

/-- C6 witness: concrete marketplace load failure at tip=100, cursor=50,
showing the cursor is kept and `num_errors` reaches 1. -/
theorem marketplace_failure_isolated_witness :
    (run_tick ⟨Except.ok 100, none, 1, Except.error Err.loadFail, 1,
        Except.ok 7, none, none⟩ ⟨51, [50], 0, none, 0, 0⟩).1.cursors
      = [50] ∧
    (run_tick ⟨Except.ok 100, none, 1, Except.error Err.loadFail, 1,
        Except.ok 7, none, none⟩ ⟨51, [50], 0, none, 0, 0⟩).1.num_errors
      = 1 := by
  have h := marketplace_failure_isolated
    ⟨Except.ok 100, none, 1, Except.error Err.loadFail, 1,
      Except.ok 7, none, none⟩ ⟨51, [50], 0, none, 0, 0⟩ 100
    Err.loadFail rfl (by decide) rfl rfl
  exact ⟨h.1, h.2.2.1⟩

/-- C7: when the dshop (dataset B) load raises after a successful
marketplace (dataset A) load, the error counter goes up by exactly one,
the cursor rows and `start_block` are untouched, and the cumulative
marketplace row counter already includes the rows of the successful A
load. -/
theorem dshop_failure_after_marketplace (env : TickEnv) (st : EtlState)
    (tip : Int) (mrows : Nat) (e : Err)
    (htip : env.tip = Except.ok tip)
    (hge : ¬ tip - JOB_BLOCK_LAG < st.start_block)
    (hex : env.extractErr = none)
    (hml : (bigquery_load env.marketplaceSize env.marketplaceLoad).1 =
      Except.ok mrows)
    (hdl : (bigquery_load env.dshopSize env.dshopLoad).1 =
      Except.error e) :
    (run_tick env st).1.cursors = st.cursors ∧
    (run_tick env st).1.start_block = st.start_block ∧
    (run_tick env st).1.num_errors = st.num_errors + 1 ∧
    (run_tick env st).1.num_marketplace_rows =
      st.num_marketplace_rows + mrows ∧
    (run_tick env st).1.num_dshop_rows = st.num_dshop_rows := by
  simp [run_tick, htip, hge, hex, hml, hdl, failSt]

/-- C7 witness: concrete dshop load failure after marketplace loaded 5
rows, at tip=100, cursor=50. -/
theorem dshop_failure_after_marketplace_witness :
    (run_tick ⟨Except.ok 100, none, 1, Except.ok 5, 1,
        Except.error Err.loadFail, none, none⟩
      ⟨51, [50], 0, none, 0, 0⟩).1.cursors = [50] ∧
    (run_tick ⟨Except.ok 100, none, 1, Except.ok 5, 1,
        Except.error Err.loadFail, none, none⟩
      ⟨51, [50], 0, none, 0, 0⟩).1.num_marketplace_rows = 0 + 5 := by
  have h := dshop_failure_after_marketplace
    ⟨Except.ok 100, none, 1, Except.ok 5, 1,
      Except.error Err.loadFail, none, none⟩ ⟨51, [50], 0, none, 0, 0⟩
    100 5 Err.loadFail rfl (by decide) rfl rfl rfl
  exact ⟨h.1, h.2.2.2.1⟩

/-- C3: on a fully successful non-empty tick, the persisted cursor is
advanced to exactly `safeEnd = tip - JOB_BLOCK_LAG`, the in-memory
`start_block` becomes `safeEnd + 1`, the error counter is unchanged, the
extraction was invoked on the window `[start_block, safeEnd]`, and the
single cursor commit is the only persisted-state write in the trace. -/
theorem success_tick_advances_cursor (env : TickEnv) (st : EtlState)
    (tip : Int) (mrows drows : Nat) (c : Int) (rest : List Int)
    (htip : env.tip = Except.ok tip)
    (hge : ¬ tip - JOB_BLOCK_LAG < st.start_block)
    (hex : env.extractErr = none)
    (hml : (bigquery_load env.marketplaceSize env.marketplaceLoad).1 =
      Except.ok mrows)
    (hdl : (bigquery_load env.dshopSize env.dshopLoad).1 =
      Except.ok drows)
    (hq : env.storeQueryErr = none)
    (hc : env.storeCommitErr = none)
    (hcur : st.cursors = c :: rest) :
    (run_tick env st).1.cursors = (tip - JOB_BLOCK_LAG) :: rest ∧
    (run_tick env st).1.start_block = (tip - JOB_BLOCK_LAG) + 1 ∧
    (run_tick env st).1.num_errors = st.num_errors ∧
    Ev.extractCall st.start_block (tip - JOB_BLOCK_LAG) ∈
      (run_tick env st).2 ∧
    (run_tick env st).2.filter isCommitEv =
      [Ev.dbCommit (tip - JOB_BLOCK_LAG)] := by
  simp [run_tick, set_cursor, htip, hge, hex, hml, hdl, hq, hc, hcur,
    isCommitEv, filter_commit_contact, List.filter_append]

/-- C3 witness: tip=100, lag=4, prior cursor=50 give window [51,96]; on
success the cursor becomes 96 and the next `start_block` is 97. -/
theorem success_tick_advances_cursor_witness :
    (run_tick ⟨Except.ok 100, none, 1, Except.ok 5, 1, Except.ok 7,
        none, none⟩ ⟨51, [50], 0, none, 0, 0⟩).1.cursors = [96] ∧
    (run_tick ⟨Except.ok 100, none, 1, Except.ok 5, 1, Except.ok 7,
        none, none⟩ ⟨51, [50], 0, none, 0, 0⟩).1.start_block = 97 ∧
    Ev.extractCall 51 96 ∈
      (run_tick ⟨Except.ok 100, none, 1, Except.ok 5, 1, Except.ok 7,
        none, none⟩ ⟨51, [50], 0, none, 0, 0⟩).2 := by
  have h := success_tick_advances_cursor
    ⟨Except.ok 100, none, 1, Except.ok 5, 1, Except.ok 7, none, none⟩
    ⟨51, [50], 0, none, 0, 0⟩ 100 5 7 50 [] rfl (by decide) rfl rfl rfl
    rfl rfl rfl
  refine ⟨?_, ?_, h.2.2.2.1⟩
  · have := h.1; simpa using this
  · have := h.2.1; simpa using this

/-- C1 counterexample: with tip=100, prior `start_block`=51, persisted
cursor [50], everything succeeding except the final
`db.session.commit()`, the tick leaves the persisted cursor at 50 but the
in-memory `start_block` ends at 97, not at its prior value 51 — so the
range [51,96] is NOT retried on the next tick. -/
theorem set_cursor_failure_keeps_start_block_cex :
    (run_tick ⟨Except.ok 100, none, 1, Except.ok 5, 1, Except.ok 7,
        none, some Err.storeCommit⟩
      ⟨51, [50], 0, none, 0, 0⟩).1.start_block = 97 ∧
    ¬ ((run_tick ⟨Except.ok 100, none, 1, Except.ok 5, 1, Except.ok 7,
        none, some Err.storeCommit⟩
      ⟨51, [50], 0, none, 0, 0⟩).1.start_block =
      (⟨51, [50], 0, none, 0, 0⟩ : EtlState).start_block) := by
  decide

/-- C1 amended: if the cursor commit fails, the persisted cursor rows are
unchanged and the error is counted, but `self.start_block` was already
set to `safeEnd + 1` before the persist attempt (line 134 precedes the
commit in `_set_cursor`), so the failed range is skipped, not retried, by
the next tick of this process. -/
theorem set_cursor_failure_skips_range (env : TickEnv) (st : EtlState)
    (tip : Int) (mrows drows : Nat) (e : Err)
    (htip : env.tip = Except.ok tip)
    (hge : ¬ tip - JOB_BLOCK_LAG < st.start_block)
    (hex : env.extractErr = none)
    (hml : (bigquery_load env.marketplaceSize env.marketplaceLoad).1 =
      Except.ok mrows)
    (hdl : (bigquery_load env.dshopSize env.dshopLoad).1 =
      Except.ok drows)
    (hq : env.storeQueryErr = none)
    (hc : env.storeCommitErr = some e)
    (hne : st.cursors ≠ []) :
    (run_tick env st).1.cursors = st.cursors ∧
    (run_tick env st).1.num_errors = st.num_errors + 1 ∧
    (run_tick env st).1.last_error = some e ∧
    (run_tick env st).1.start_block = (tip - JOB_BLOCK_LAG) + 1 := by
  rcases hcur : st.cursors with _ | ⟨c, rest⟩
  · exact absurd hcur hne
  · simp [run_tick, set_cursor, htip, hge, hex, hml, hdl, hq, hc, hcur,
      failSt]

/-- C1 amended witness: the same concrete commit failure as the
counterexample, showing the persisted cursor stays [50], the error is
counted, and `start_block` ends at 97. -/
theorem set_cursor_failure_skips_range_witness :
    (run_tick ⟨Except.ok 100, none, 1, Except.ok 5, 1, Except.ok 7,
        none, some Err.storeCommit⟩
      ⟨51, [50], 0, none, 0, 0⟩).1.cursors = [50] ∧
    (run_tick ⟨Except.ok 100, none, 1, Except.ok 5, 1, Except.ok 7,
        none, some Err.storeCommit⟩
      ⟨51, [50], 0, none, 0, 0⟩).1.num_errors = 1 ∧
    (run_tick ⟨Except.ok 100, none, 1, Except.ok 5, 1, Except.ok 7,
        none, some Err.storeCommit⟩
      ⟨51, [50], 0, none, 0, 0⟩).1.start_block = 97 := by
  have h := set_cursor_failure_skips_range
    ⟨Except.ok 100, none, 1, Except.ok 5, 1, Except.ok 7,
      none, some Err.storeCommit⟩ ⟨51, [50], 0, none, 0, 0⟩
    100 5 7 Err.storeCommit rfl (by decide) rfl rfl rfl rfl rfl
    (by decide)
  refine ⟨h.1, h.2.1, ?_⟩
  have := h.2.2.2; simpa using this

/-- C8: a load whose artifact is absent or empty (`data_size = 0`)
returns 0 rows without contacting the warehouse and counts as success;
concretely, a tick whose products (dshop) artifact is empty — and whose
warehouse would even reject the load if contacted — still completes,
advances the cursor, adds 0 dshop rows and never contacts the warehouse
for dshop. -/
theorem empty_artifact_load_zero :
    (∀ r : Except Err Nat, bigquery_load 0 r = (Except.ok 0, false)) ∧
    (run_tick ⟨Except.ok 100, none, 1, Except.ok 5, 0,
        Except.error Err.loadFail, none, none⟩
      ⟨51, [50], 0, none, 0, 0⟩).1 = ⟨97, [96], 0, none, 5, 0⟩ ∧
    Ev.bqContact Dataset.dshop ∉
      (run_tick ⟨Except.ok 100, none, 1, Except.ok 5, 0,
        Except.error Err.loadFail, none, none⟩
      ⟨51, [50], 0, none, 0, 0⟩).2 := by
  refine ⟨fun r => rfl, by decide, by decide⟩

/-- Helper invariant preservation: one tick keeps the thread in a good
state and never decreases the persisted cursor. -/
theorem tick_preserves_good (env : TickEnv) (st : EtlState)
    (h : goodState st) :
    goodState (run_tick env st).1 ∧
    cursorVal st ≤ cursorVal (run_tick env st).1 := by
  obtain ⟨hne, hle⟩ := h
  unfold run_tick
  cases htip : env.tip with
  | error e =>
    exact ⟨⟨hne, hle⟩, le_refl _⟩
  | ok tip =>
    by_cases hlt : tip - JOB_BLOCK_LAG < st.start_block
    · simp only [if_pos hlt]
      exact ⟨⟨hne, hle⟩, le_refl _⟩
    · simp only [if_neg hlt]
      have hend : st.start_block ≤ tip - JOB_BLOCK_LAG := le_of_not_lt hlt
      cases hex : env.extractErr with
      | some e => exact ⟨⟨hne, hle⟩, le_refl _⟩
      | none =>
        cases hml : (bigquery_load env.marketplaceSize
            env.marketplaceLoad).1 with
        | error e => exact ⟨⟨hne, hle⟩, le_refl _⟩
        | ok mrows =>
          cases hdl : (bigquery_load env.dshopSize env.dshopLoad).1 with
          | error e => exact ⟨⟨hne, hle⟩, le_refl _⟩
          | ok drows =>
            rcases hcur : st.cursors with _ | ⟨c, rest⟩
            · exact absurd hcur hne
            · have hc : cursorVal st = c := by
                simp [cursorVal, hcur]
              cases hq : env.storeQueryErr with
              | some e =>
                refine ⟨⟨?_, ?_⟩, ?_⟩ <;>
                  (simp [set_cursor, hcur, failSt, goodState, cursorVal,
                    hc]; try omega)
              | none =>
                cases hcm : env.storeCommitErr with
                | some e =>
                  refine ⟨⟨?_, ?_⟩, ?_⟩ <;>
                    (simp [set_cursor, hcur, failSt, goodState, cursorVal,
                      hc]; try omega)
                | none =>
                  refine ⟨⟨?_, ?_⟩, ?_⟩ <;>
                    (simp [set_cursor, hcur, failSt, goodState, cursorVal,
                      hc]; try omega)

/-- C2: across any sequence of ticks started in a reachable state (cursor
table non-empty, `start_block` past the persisted cursor — what
`_init_cursor` establishes), the persisted cursor value never decreases,
whatever mix of successes, failures and empty windows the ticks meet. -/
theorem etl_cursor_monotone (envs : List TickEnv) (st : EtlState)
    (h : goodState st) :
    goodState (run_ticks envs st) ∧
    cursorVal st ≤ cursorVal (run_ticks envs st) := by
  induction envs generalizing st with
  | nil => exact ⟨h, le_refl _⟩
  | cons env rest ih =>
    have h1 := tick_preserves_good env st h
    have h2 := ih (run_tick env st).1 h1.1
    simp only [run_ticks, List.foldl_cons] at h2 ⊢
    exact ⟨h2.1, le_trans h1.2 h2.2⟩

/-- C2 witness: three concrete ticks — a success, a commit failure and an
empty window — starting from cursor 50; the cursor never decreases. -/
theorem etl_cursor_monotone_witness :
    goodState ⟨51, [50], 0, none, 0, 0⟩ ∧
    cursorVal ⟨51, [50], 0, none, 0, 0⟩ ≤
      cursorVal (run_ticks
        [⟨Except.ok 100, none, 1, Except.ok 5, 1, Except.ok 7,
           none, none⟩,
         ⟨Except.ok 200, none, 1, Except.ok 5, 1, Except.ok 7,
           none, some Err.storeCommit⟩,
         ⟨Except.ok 53, none, 1, Except.ok 5, 1, Except.ok 7,
           none, none⟩] ⟨51, [50], 0, none, 0, 0⟩) := by
  have hg : goodState ⟨51, [50], 0, none, 0, 0⟩ :=
    ⟨by decide, by decide⟩
  exact ⟨hg, (etl_cursor_monotone _ _ hg).2⟩

/-- C9: every per-tick exception is caught at the tick boundary by the
single `except Exception` clause of `_run` — `run_tick` is total, so
nothing propagates to the loop — and when the tick raises, the error
counter goes up by exactly one and `last_error` records that exception;
when it does not raise (success or empty window), both are unchanged. -/
theorem tick_errors_counted (env : TickEnv) (st : EtlState) :
    (tick_error env st = none →
      (run_tick env st).1.num_errors = st.num_errors ∧
      (run_tick env st).1.last_error = st.last_error) ∧
    (∀ e, tick_error env st = some e →
      (run_tick env st).1.num_errors = st.num_errors + 1 ∧
      (run_tick env st).1.last_error = some e) := by
  unfold run_tick tick_error
  cases htip : env.tip with
  | error e => simp [failSt]
  | ok tip =>
    by_cases hlt : tip - JOB_BLOCK_LAG < st.start_block
    · simp [hlt]
    · simp only [if_neg hlt]
      cases hex : env.extractErr with
      | some e => simp [failSt]
      | none =>
        cases hml : (bigquery_load env.marketplaceSize
            env.marketplaceLoad).1 with
        | error e => simp [failSt]
        | ok mrows =>
          cases hdl : (bigquery_load env.dshopSize env.dshopLoad).1 with
          | error e => simp [failSt]
          | ok drows =>
            rcases hcur : st.cursors with _ | ⟨c, rest⟩
            · cases hq : env.storeQueryErr with
              | some e => simp [set_cursor, hcur, failSt]
              | none => simp [set_cursor, hcur, failSt]
            · cases hq : env.storeQueryErr with
              | some e => simp [set_cursor, hcur, failSt]
              | none =>
                cases hcm : env.storeCommitErr with
                | some e => simp [set_cursor, hcur, failSt]
                | none => simp [set_cursor, hcur, failSt]

/-- C9 witness: a concrete extraction failure bumps the counter to 1 and
records the error; a concrete fully successful tick from the same state
leaves the counter at 0 and `last_error` at none. -/
theorem tick_errors_counted_witness :
    (run_tick ⟨Except.ok 100, some Err.extraction, 1, Except.ok 5, 1,
        Except.ok 7, none, none⟩
      ⟨51, [50], 0, none, 0, 0⟩).1.num_errors = 0 + 1 ∧
    (run_tick ⟨Except.ok 100, some Err.extraction, 1, Except.ok 5, 1,
        Except.ok 7, none, none⟩
      ⟨51, [50], 0, none, 0, 0⟩).1.last_error = some Err.extraction ∧
    (run_tick ⟨Except.ok 100, none, 1, Except.ok 5, 1, Except.ok 7,
        none, none⟩ ⟨51, [50], 0, none, 0, 0⟩).1.num_errors = 0 ∧
    (run_tick ⟨Except.ok 100, none, 1, Except.ok 5, 1, Except.ok 7,
        none, none⟩ ⟨51, [50], 0, none, 0, 0⟩).1.last_error = none := by
  have h1 := (tick_errors_counted
    ⟨Except.ok 100, some Err.extraction, 1, Except.ok 5, 1,
      Except.ok 7, none, none⟩
    ⟨51, [50], 0, none, 0, 0⟩).2 Err.extraction rfl
  have h2 := (tick_errors_counted
    ⟨Except.ok 100, none, 1, Except.ok 5, 1, Except.ok 7, none, none⟩
    ⟨51, [50], 0, none, 0, 0⟩).1 rfl
  exact ⟨h1.1, h1.2, h2.1, h2.2⟩

/-- Helper for the wait loop: if the flag is false at absolute index
`i + k`, the loop starting at index `i` sleeps at most `k` times. -/
theorem wait_loop_le (alive : Nat → Bool) :
    ∀ n i k, alive (i + k) = false → wait_loop alive i n ≤ k := by
  intro n
  induction n with
  | zero => intro i k _; simp [wait_loop]
  | succ n ih =>
    intro i k hk
    unfold wait_loop
    by_cases h : alive i
    · simp only [h, if_true]
      cases k with
      | zero =>
        rw [Nat.add_zero] at hk
        rw [h] at hk
        cases hk
      | succ k =>
        have hk2 : alive (i + 1 + k) = false := by
          have he : i + 1 + k = i + (k + 1) := by omega
          rw [he]; exact hk
        have := ih (i + 1) k hk2
        omega
    · simp [h]

/-- C10 counterexample: the liveness checks in `EtlThread._wait` are a
full `time.sleep(1)` apart, i.e. exactly 1000 ms — not sub-second
granularity. -/
theorem wait_check_interval_not_subsecond :
    ¬ WAIT_CHECK_INTERVAL_MS < 1000 := by decide

/-- C10 amended: the liveness flag is checked once per one-second sleep
slice; once the flag reads false at check `k`, the wait performs at most
`k` one-second sleeps, so the remaining interval is skipped and shutdown
latency inside `_wait` is bounded by the one-second check interval. -/
theorem wait_exits_at_cleared_flag (alive : Nat → Bool) (n k : Nat)
    (h : alive k = false) :
    wait_sleeps alive n ≤ k ∧ WAIT_CHECK_INTERVAL_MS = 1000 := by
  refine ⟨wait_loop_le alive n 0 k ?_, rfl⟩
  simpa using h

/-- C10 amended witness: a flag cleared at check index 2 of a 15-second
wait causes at most 2 of the 15 sleeps to happen. -/
theorem wait_exits_at_cleared_flag_witness :
    (fun i => decide (i < 2)) 2 = false ∧
    wait_sleeps (fun i => decide (i < 2)) 15 ≤ 2 := by
  refine ⟨by decide, ?_⟩
  exact (wait_exits_at_cleared_flag (fun i => decide (i < 2)) 15 2
    (by decide)).1
